import Mathlib

/-!
Shallow embedding of the particle-simulation engine of
`src/main_galaxy.cpp` (whose integrator is shared verbatim with
`src/main.cpp`) from the BlackHole-GPU-Simulator repository.

Modelling conventions:
* C++ `float` scalars are modelled as real numbers.
* The pseudo-random generator (`randFloat`, a `static mt19937` behind a
  `uniform_real_distribution`) is modelled as an explicit stream of unit
  draws in `[0,1)` threaded through every sampling call; each call
  `randFloat(a,b)` returns the affine image `a + (b-a)*u` of the next
  unit draw `u`.
* `std::vector<float>::resize(count)` with an `int` argument performs the
  C++ `int -> size_t` conversion; a request above `max_size()` raises
  `std::length_error`.  Both are modelled explicitly.
-/

noncomputable section

namespace BlackHole

/-- Pseudo-random source: `bits n` is the n-th unit draw in `[0,1)` of the
engine and `k` is the index of the next draw.  This makes the hidden
`static mt19937 rng` of `randFloat` (`main_galaxy.cpp` lines 11-15)
explicit injectable state, as the spec's RandomSampler requires. -/
structure Rng where
  bits : ℕ → ℝ
  k : ℕ

/-- `randFloat(a, b)`: one call of `uniform_real_distribution<float>(a,b)`
on the engine, modelled on the unit draw `u` it consumes
(`main_galaxy.cpp` lines 11-15). -/
def randFloat (a b u : ℝ) : ℝ := a + (b - a) * u

/-- One slot of the structure-of-arrays particle state
(`posX/posY/velX/velY/brightness`, `main_galaxy.cpp` lines 46-50). -/
structure Particle where
  posX : ℝ
  posY : ℝ
  velX : ℝ
  velY : ℝ
  brightness : ℝ

/-- `SimParams` (`main_galaxy.cpp` lines 20-38).  A plain aggregate: the
C++ struct has no constructor logic, so every field assignment is
accepted.  `main.cpp` lines 19-28 declare the prefix of these fields with
the same default values. -/
structure SimParams where
  G : ℝ
  M_bh : ℝ
  softening : ℝ
  v0 : ℝ
  r_core : ℝ
  dt : ℝ
  viscosityBase : ℝ
  viscosityCore : ℝ
  heatScale : ℝ
  brightnessCool : ℝ
  horizonRadius : ℝ
  respawnRMin : ℝ
  respawnRMax : ℝ

/-- The default member initializers of `SimParams`
(`main_galaxy.cpp` lines 21-37); `GalaxySim` default-constructs its `P`
with exactly these values. -/
def defaultParams : SimParams :=
  { G := 2
    M_bh := 400
    softening := 0.5
    v0 := 2.2
    r_core := 1.2
    dt := 0.01
    viscosityBase := 0.003
    viscosityCore := 1
    heatScale := 0.0012
    brightnessCool := 0.997
    horizonRadius := 7
    respawnRMin := 18
    respawnRMax := 28 }

/-- `respawnAtOuterRing` (`main_galaxy.cpp` lines 55-83): all five fields
of the slot are overwritten; three engine draws are consumed (radius,
angle, jitter), in this order. -/
def respawnAtOuterRing (P : SimParams) (g : Rng) : Particle × Rng :=
  let u := randFloat 0 1 (g.bits g.k)
  let r := P.respawnRMin + (P.respawnRMax - P.respawnRMin) * u
  let theta := randFloat 0 (2 * 3.14159265) (g.bits (g.k + 1))
  let x := r * Real.cos theta
  let y := r * Real.sin theta
  let dist := max (Real.sqrt (x * x + y * y)) 0.1
  let rx := x / dist
  let ry := y / dist
  let tx := -ry
  let ty := rx
  let v_bh := Real.sqrt (P.G * P.M_bh / (dist + P.softening))
  let v_dm := P.v0
  let v_circ := Real.sqrt (v_bh * v_bh + v_dm * v_dm)
  let jitter := randFloat (-0.05) 0.05 (g.bits (g.k + 2))
  let v := v_circ * 1.4 * (1 + jitter)
  (⟨x, y, tx * v, ty * v, 0.6⟩, ⟨g.bits, g.k + 3⟩)

/-- Body of the `init` loop for one particle
(`main_galaxy.cpp` lines 95-122): four engine draws are consumed
(radius, angle, jitter, brightness), in this order. -/
def initParticle (P : SimParams) (g : Rng) : Particle × Rng :=
  let u := randFloat 0 1 (g.bits g.k)
  let r := 2 + (30 - 2) * Real.sqrt u
  let theta := randFloat 0 (2 * 3.14159265) (g.bits (g.k + 1))
  let x := r * Real.cos theta
  let y := r * Real.sin theta
  let dist := max (Real.sqrt (x * x + y * y)) 0.1
  let rx := x / dist
  let ry := y / dist
  let tx := -ry
  let ty := rx
  let v_bh := Real.sqrt (P.G * P.M_bh / (dist + P.softening))
  let v_dm := P.v0
  let v_circ := Real.sqrt (v_bh * v_bh + v_dm * v_dm)
  let jitter := randFloat (-0.05) 0.05 (g.bits (g.k + 2))
  let v := v_circ * 1.6 * (1 + jitter)
  let b := randFloat 0.5 1 (g.bits (g.k + 3))
  (⟨x, y, tx * v, ty * v, b⟩, ⟨g.bits, g.k + 4⟩)

/-- Regularized distance of `step` (`main_galaxy.cpp` line 131, also
`main.cpp` line 95): `dist = sqrt(x*x + y*y) + 1e-3f`, computed from the
pre-step position. -/
def distOf (p : Particle) : ℝ :=
  Real.sqrt (p.posX * p.posX + p.posY * p.posY) + 1e-3

/-- Inward direction, x component: `dx = -x * invDist`
(`main_galaxy.cpp` lines 132-135). -/
def dirX (p : Particle) : ℝ := -p.posX * (1 / distOf p)

/-- Inward direction, y component: `dy = -y * invDist`
(`main_galaxy.cpp` line 136). -/
def dirY (p : Particle) : ℝ := -p.posY * (1 / distOf p)

/-- Black-hole acceleration magnitude
`a_bh_mag = G * M_bh / (dist*dist + softening)`
(`main_galaxy.cpp` line 139). -/
def aBhMag (P : SimParams) (p : Particle) : ℝ :=
  P.G * P.M_bh / (distOf p * distOf p + P.softening)

/-- Dark-matter halo acceleration magnitude
`a_dm_mag = v0*v0 / (dist + r_core)` (`main_galaxy.cpp` line 144). -/
def aDmMag (P : SimParams) (p : Particle) : ℝ :=
  P.v0 * P.v0 / (distOf p + P.r_core)

/-- Total acceleration, x: `ax = dx*a_bh_mag + dx*a_dm_mag`
(`main_galaxy.cpp` lines 140-148). -/
def accX (P : SimParams) (p : Particle) : ℝ :=
  dirX p * aBhMag P p + dirX p * aDmMag P p

/-- Total acceleration, y: `ay = dy*a_bh_mag + dy*a_dm_mag`
(`main_galaxy.cpp` lines 141-149). -/
def accY (P : SimParams) (p : Particle) : ℝ :=
  dirY p * aBhMag P p + dirY p * aDmMag P p

/-- Velocity after the kick `velX[i] += ax * dt`
(`main_galaxy.cpp` line 151, `main.cpp` line 116). -/
def velX1 (P : SimParams) (p : Particle) : ℝ := p.velX + accX P p * P.dt

/-- Velocity after the kick `velY[i] += ay * dt`
(`main_galaxy.cpp` line 152, `main.cpp` line 117). -/
def velY1 (P : SimParams) (p : Particle) : ℝ := p.velY + accY P p * P.dt

/-- Position after the drift `posX[i] += velX[i] * dt`, which reads the
already-updated velocity (`main_galaxy.cpp` line 154, `main.cpp` line 119). -/
def posX1 (P : SimParams) (p : Particle) : ℝ := p.posX + velX1 P p * P.dt

/-- Position after the drift `posY[i] += velY[i] * dt`
(`main_galaxy.cpp` line 155, `main.cpp` line 120). -/
def posY1 (P : SimParams) (p : Particle) : ℝ := p.posY + velY1 P p * P.dt

/-- The pure integration phase of one step (`main_galaxy.cpp` lines
127-155; it is the whole per-particle body of `step` in `main.cpp`
lines 91-121, which has no accretion physics). -/
def integrate (P : SimParams) (p : Particle) : Particle :=
  ⟨posX1 P p, posY1 P p, velX1 P p, velY1 P p, p.brightness⟩

/-- `main.cpp`'s `step` (lines 89-122): the integration applied to every
slot; it consumes no randomness. -/
def stepBasic (P : SimParams) (ps : List Particle) : List Particle :=
  ps.map (integrate P)

/-- Uncapped viscosity `eta = viscosityBase / (dist + viscosityCore)`
(`main_galaxy.cpp` line 161). -/
def etaRaw (P : SimParams) (p : Particle) : ℝ :=
  P.viscosityBase / (distOf p + P.viscosityCore)

/-- Capped viscosity: `if (eta > 0.02f) eta = 0.02f`
(`main_galaxy.cpp` line 162). -/
def eta (P : SimParams) (p : Particle) : ℝ :=
  if etaRaw P p > 0.02 then 0.02 else etaRaw P p

/-- `speed2 = vx*vx + vy*vy` of the post-integration, pre-damping
velocity (`main_galaxy.cpp` lines 164-166). -/
def speed2 (P : SimParams) (p : Particle) : ℝ :=
  velX1 P p * velX1 P p + velY1 P p * velY1 P p

/-- `heat = heatScale * eta * speed2` (`main_galaxy.cpp` line 168). -/
def heat (P : SimParams) (p : Particle) : ℝ :=
  P.heatScale * eta P p * speed2 P p

/-- `brightness[i] += heat` (`main_galaxy.cpp` line 169). -/
def bHeated (P : SimParams) (p : Particle) : ℝ := p.brightness + heat P p

/-- Upper clamp `if (brightness[i] > 2.0f) brightness[i] = 2.0f`
(`main_galaxy.cpp` line 171). -/
def bClampHi (P : SimParams) (p : Particle) : ℝ :=
  if bHeated P p > 2 then 2 else bHeated P p

/-- Damped velocity `velX[i] *= (1 - eta)` (`main_galaxy.cpp` lines
173-174). -/
def velX2 (P : SimParams) (p : Particle) : ℝ := velX1 P p * (1 - eta P p)

/-- Damped velocity `velY[i] *= (1 - eta)` (`main_galaxy.cpp` line 175). -/
def velY2 (P : SimParams) (p : Particle) : ℝ := velY1 P p * (1 - eta P p)

/-- Cooling `brightness[i] *= brightnessCool` (`main_galaxy.cpp`
line 177), applied after the heat and its clamp. -/
def bCooled (P : SimParams) (p : Particle) : ℝ :=
  bClampHi P p * P.brightnessCool

/-- Lower clamp `if (brightness[i] < 0.2f) brightness[i] = 0.2f`
(`main_galaxy.cpp` line 178). -/
def bFinal (P : SimParams) (p : Particle) : ℝ :=
  if bCooled P p < 0.2 then 0.2 else bCooled P p

/-- The per-particle body of `step` when the horizon test fails: the
integration followed by the accretion physics (`main_galaxy.cpp` lines
127-178). -/
def stepNoRespawn (P : SimParams) (p : Particle) : Particle :=
  ⟨posX1 P p, posY1 P p, velX2 P p, velY2 P p, bFinal P p⟩

/-- The complete per-particle body of `step` (`main_galaxy.cpp` lines
127-183): if the pre-step regularized distance is below the horizon the
slot is overwritten by `respawnAtOuterRing` (which rewrites all five
fields, so the earlier writes of this iteration are dead); otherwise no
randomness is consumed. -/
def stepParticle (P : SimParams) (p : Particle) (g : Rng) : Particle × Rng :=
  if distOf p < P.horizonRadius then respawnAtOuterRing P g
  else (stepNoRespawn P p, g)

/-- `step` (`main_galaxy.cpp` lines 125-184): the per-particle body
applied to the slots in index order, threading the engine state. -/
def step (P : SimParams) : List Particle → Rng → List Particle × Rng
  | [], g => ([], g)
  | p :: ps, g =>
      let pg := stepParticle P p g
      let rest := step P ps pg.2
      (pg.1 :: rest.1, rest.2)

/-- Requested `size_t` value of `posX.resize(count)` when `count` is a
C++ `int` (`main_galaxy.cpp` line 86): the implicit signed-to-unsigned
conversion reduces modulo 2^64. -/
def sizeOfCount (count : ℤ) : ℕ := (count % 2 ^ 64).toNat

/-- Upper bound on `std::vector<float>::max_size()`:
`PTRDIFF_MAX / sizeof(float)` = 2^61.  `resize` beyond it raises
`std::length_error`. -/
def floatVecMaxSize : ℕ := 2 ^ 61

/-- Errors the C++ runtime can raise in the modelled fragment. -/
inductive CppError where
  | lengthError

/-- The `init` fill loop (`main_galaxy.cpp` lines 95-122) for `n` slots
in index order. -/
def initFill (P : SimParams) : ℕ → Rng → List Particle × Rng
  | 0, g => ([], g)
  | n + 1, g =>
      let pg := initParticle P g
      let rest := initFill P n pg.2
      (pg.1 :: rest.1, rest.2)

/-- `init(count)` (`main_galaxy.cpp` lines 85-123): the five `resize`
calls convert `count` to `size_t`; a request beyond `max_size()` raises
`length_error`, otherwise the loop `for (int i = 0; i < count; ++i)`
fills `count` slots (for the sizes that survive the guard the two agree). -/
def init (P : SimParams) (count : ℤ) (g : Rng) :
    Except CppError (List Particle × Rng) :=
  if floatVecMaxSize < sizeOfCount count then Except.error CppError.lengthError
  else Except.ok (initFill P count.toNat g)

/-- `k` successive `step()` calls. -/
def runSteps (P : SimParams) : ℕ → List Particle → Rng → List Particle × Rng
  | 0, ps, g => (ps, g)
  | Nat.succ n, ps, g =>
      let s := step P ps g
      runSteps P n s.1 s.2

/-- One full run: `init(count)` followed by `k` `step()` calls. -/
def runSim (P : SimParams) (count : ℤ) (g : Rng) (k : ℕ) :
    Except CppError (List Particle × Rng) :=
  (init P count g).map (fun s => runSteps P k s.1 s.2)

/-- Euclidean distance from the center (no epsilon), the quantity the
spec's respawn postcondition bounds. -/
def centerDist (p : Particle) : ℝ :=
  Real.sqrt (p.posX * p.posX + p.posY * p.posY)

/-- Speed `sqrt(vx*vx + vy*vy)` of a particle. -/
def spd (p : Particle) : ℝ :=
  Real.sqrt (p.velX * p.velX + p.velY * p.velY)

/-- The respawn-radius formula claimed by the spec (§4.5 via §4.2): the
Initializer's area-biased sampling restricted to the ring
`[respawnRMin, respawnRMax]`, i.e. with `sqrt u` in place of `u`.
Stated from the spec's words only, for comparison with the code's
`respawnAtOuterRing`. -/
def respawnRadiusSpec (P : SimParams) (u : ℝ) : ℝ :=
  P.respawnRMin + (P.respawnRMax - P.respawnRMin) * Real.sqrt u

/-- A concrete engine whose every unit draw is 0. -/
def constRng0 : Rng := ⟨fun _ => 0, 0⟩

/-- A concrete engine whose every unit draw is 1/4. -/
def rngQuarter : Rng := ⟨fun _ => 1 / 4, 0⟩

/-- Parameters with viscosity and cooling disabled (Scenario C):
`viscosityBase = 0`, `heatScale = 0`, `brightnessCool = 1`. -/
def scenarioCParams : SimParams :=
  { defaultParams with viscosityBase := 0, heatScale := 0, brightnessCool := 1 }

/-- A malformed parameter set: `respawnRMin = 5` is below
`horizonRadius = 7`, violating the spec's configuration invariant. -/
def badParams : SimParams := { defaultParams with respawnRMin := 5 }

theorem randFloat_zero_one (u : ℝ) : randFloat 0 1 u = u := by
  simp [randFloat]

theorem step_length (P : SimParams) (ps : List Particle) (g : Rng) :
    ((step P ps g).1).length = ps.length := by
  induction ps generalizing g with
  | nil => rfl
  | cons p ps ih => simp [step, ih]

theorem centerDist_polar (r θ vx vy b : ℝ) :
    centerDist ⟨r * Real.cos θ, r * Real.sin θ, vx, vy, b⟩ = |r| := by
  dsimp only [centerDist]
  have h : r * Real.cos θ * (r * Real.cos θ) + r * Real.sin θ * (r * Real.sin θ)
      = r ^ 2 * (Real.sin θ ^ 2 + Real.cos θ ^ 2) := by ring
  rw [h, Real.sin_sq_add_cos_sq, mul_one, Real.sqrt_sq_eq_abs]

theorem respawn_centerDist (P : SimParams) (g : Rng) :
    centerDist (respawnAtOuterRing P g).1
      = |P.respawnRMin + (P.respawnRMax - P.respawnRMin) * randFloat 0 1 (g.bits g.k)| :=
  centerDist_polar _ _ _ _ _

theorem respawn_brightness (P : SimParams) (g : Rng) :
    (respawnAtOuterRing P g).1.brightness = 0.6 := rfl

theorem sqrt_of_three_sq : Real.sqrt (3 * 3 + 0 * 0) = 3 := by
  rw [show (3 * 3 + 0 * 0 : ℝ) = 3 ^ 2 by norm_num]
  exact Real.sqrt_sq (by norm_num)

theorem sqrt_of_ten_sq : Real.sqrt (10 * 10 + 0 * 0) = 10 := by
  rw [show (10 * 10 + 0 * 0 : ℝ) = 10 ^ 2 by norm_num]
  exact Real.sqrt_sq (by norm_num)

theorem bClampHi_eq_min (P : SimParams) (p : Particle) :
    bClampHi P p = min 2 (bHeated P p) := by
  unfold bClampHi
  rw [min_def]
  split_ifs <;> first | rfl | linarith

theorem bFinal_eq_max (P : SimParams) (p : Particle) :
    bFinal P p = max 0.2 (bCooled P p) := by
  unfold bFinal
  rw [max_def]
  split_ifs <;> first | rfl | linarith

/-- C3: one integration step is semi-implicit Euler: the velocity is
kicked first by the total inward acceleration
`G*M/(d^2 + softening) + v0^2/(d + r_core)` along `(-x/d, -y/d)` with
`d = sqrt(x^2+y^2) + 1e-3`, and the position then moves by the
already-updated velocity, in exactly that order. -/
theorem semi_implicit_euler_order (P : SimParams) (p : Particle) :
    (integrate P p).velX
        = p.velX + -p.posX / distOf p
            * (P.G * P.M_bh / (distOf p * distOf p + P.softening)
               + P.v0 * P.v0 / (distOf p + P.r_core)) * P.dt
    ∧ (integrate P p).velY
        = p.velY + -p.posY / distOf p
            * (P.G * P.M_bh / (distOf p * distOf p + P.softening)
               + P.v0 * P.v0 / (distOf p + P.r_core)) * P.dt
    ∧ (stepNoRespawn P p).posX = p.posX + (integrate P p).velX * P.dt
    ∧ (stepNoRespawn P p).posY = p.posY + (integrate P p).velY * P.dt := by
  refine ⟨?_, ?_, rfl, rfl⟩ <;>
    · dsimp only [integrate, velX1, velY1, accX, accY, dirX, dirY, aBhMag, aDmMag]
      ring

/-- C8: within one step the accretion phase first adds
`heatScale * eta * speed2` to brightness, where `speed2` is taken from
the post-integration (pre-damping) velocity, clamps brightness at 2,
then damps the velocity by `(1 - eta)`, and only afterwards multiplies
by the cooling factor and applies the 0.2 floor — heat strictly before
cooling. -/
theorem accretion_heat_before_cooling (P : SimParams) (p : Particle) :
    (stepNoRespawn P p).brightness
        = max 0.2 (min 2 (p.brightness
              + P.heatScale * eta P p
                * ((integrate P p).velX * (integrate P p).velX
                   + (integrate P p).velY * (integrate P p).velY))
            * P.brightnessCool)
    ∧ (stepNoRespawn P p).velX = (integrate P p).velX * (1 - eta P p)
    ∧ (stepNoRespawn P p).velY = (integrate P p).velY * (1 - eta P p) := by
  refine ⟨?_, rfl, rfl⟩
  calc (stepNoRespawn P p).brightness
      = max 0.2 (bCooled P p) := bFinal_eq_max P p
    _ = max 0.2 (min 2 (bHeated P p) * P.brightnessCool) := by
        rw [show bCooled P p = bClampHi P p * P.brightnessCool from rfl,
          bClampHi_eq_min]
    _ = _ := rfl

/-- C10: with the default parameters the viscosity coefficient
`viscosityBase / (dist + viscosityCore) = 0.003 / (dist + 1)` is
strictly below the 0.02 ceiling for every particle state, so the
capping branch is never taken. -/
theorem eta_cap_never_taken (p : Particle) :
    etaRaw defaultParams p < 0.02 ∧ eta defaultParams p = etaRaw defaultParams p := by
  have hs : 0 ≤ Real.sqrt (p.posX * p.posX + p.posY * p.posY) := Real.sqrt_nonneg _
  have hdist : (1e-3 : ℝ) ≤ distOf p := by
    unfold distOf; linarith
  have hpos : (0 : ℝ) < distOf p + 1 := by
    have : (0 : ℝ) < 1e-3 := by norm_num
    linarith
  have hraw : etaRaw defaultParams p < 0.02 := by
    unfold etaRaw
    simp only [defaultParams]
    rw [div_lt_iff₀ hpos]
    have : (1e-3 : ℝ) = 0.001 := by norm_num
    nlinarith
  refine ⟨hraw, ?_⟩
  unfold eta
  rw [if_neg (not_lt.mpr hraw.le)]

/-- C5: with the RandomSampler made explicit injected state, two runs of
`init(count)` followed by the same number of `step()` calls from equal
seeds/streams produce identical trajectories. -/
theorem run_determinism (P : SimParams) (c1 c2 : ℤ) (g1 g2 : Rng) (k1 k2 : ℕ)
    (hc : c1 = c2) (hg : g1 = g2) (hk : k1 = k2) :
    runSim P c1 g1 k1 = runSim P c2 g2 k2 := by
  subst hc; subst hg; subst hk; rfl

/-- Witness for C5 at count 1, the all-zero draw stream and 2 steps. -/
theorem run_determinism_w :
    (1 : ℤ) = 1
    ∧ runSim defaultParams 1 constRng0 2 = runSim defaultParams 1 constRng0 2 :=
  ⟨rfl, run_determinism defaultParams 1 1 constRng0 constRng0 2 2 rfl rfl rfl⟩

theorem stepParticle_brightness_bounds (p : Particle) (g : Rng) :
    0.2 ≤ (stepParticle defaultParams p g).1.brightness
    ∧ (stepParticle defaultParams p g).1.brightness ≤ 2 := by
  unfold stepParticle
  split_ifs with h
  · rw [respawn_brightness]; norm_num
  · show 0.2 ≤ bFinal defaultParams p ∧ bFinal defaultParams p ≤ 2
    have hclamp : bClampHi defaultParams p ≤ 2 := by
      rw [bClampHi_eq_min]; exact min_le_left _ _
    have hcool : bCooled defaultParams p ≤ 2 := by
      have hc : bClampHi defaultParams p * 0.997 ≤ 2 * 0.997 :=
        mul_le_mul_of_nonneg_right hclamp (by norm_num)
      have he : bCooled defaultParams p = bClampHi defaultParams p * 0.997 := rfl
      rw [he]; linarith
    unfold bFinal
    split_ifs with h3
    · norm_num
    · push_neg at h3
      exact ⟨h3, hcool⟩

/-- C2: after any completed `step()` every particle's brightness lies in
the closed interval [0.2, 2], whatever the pre-step state was. -/
theorem brightness_in_bounds (ps : List Particle) (g : Rng) (q : Particle)
    (hq : q ∈ (step defaultParams ps g).1) :
    0.2 ≤ q.brightness ∧ q.brightness ≤ 2 := by
  induction ps generalizing g with
  | nil => simp [step] at hq
  | cons p ps ih =>
      simp only [step, List.mem_cons] at hq
      rcases hq with h | h
      · rw [h]; exact stepParticle_brightness_bounds p g
      · exact ih _ h

/-- Witness for C2 on a one-particle ensemble. -/
theorem brightness_in_bounds_w :
    0.2 ≤ (stepParticle defaultParams ⟨3, 0, 0, 0, 1⟩ constRng0).1.brightness
    ∧ (stepParticle defaultParams ⟨3, 0, 0, 0, 1⟩ constRng0).1.brightness ≤ 2 :=
  brightness_in_bounds [⟨3, 0, 0, 0, 1⟩] constRng0 _ (by simp [step])

/-- C1: a particle whose pre-step regularized distance is below the
horizon is respawned within the same `step()`: afterward its distance
from the center lies in [18, 28] and its brightness is exactly 0.6; the
slot is replaced, never removed, `step` preserving the ensemble length. -/
theorem horizon_respawn_postcondition (p : Particle) (g : Rng)
    (hu0 : 0 ≤ g.bits g.k) (hu1 : g.bits g.k < 1)
    (hin : distOf p < defaultParams.horizonRadius) :
    (18 ≤ centerDist (stepParticle defaultParams p g).1
      ∧ centerDist (stepParticle defaultParams p g).1 ≤ 28
      ∧ (stepParticle defaultParams p g).1.brightness = 0.6)
    ∧ ∀ (qs : List Particle) (h : Rng),
        ((step defaultParams qs h).1).length = qs.length := by
  have hstep : stepParticle defaultParams p g = respawnAtOuterRing defaultParams g := by
    unfold stepParticle; rw [if_pos hin]
  have h10 : (0 : ℝ) ≤ 10 * g.bits g.k := mul_nonneg (by norm_num) hu0
  have h10b : 10 * g.bits g.k < 10 := by nlinarith
  have hcd : centerDist (stepParticle defaultParams p g).1 = 18 + 10 * g.bits g.k := by
    rw [hstep, respawn_centerDist, randFloat_zero_one]
    have hlin : defaultParams.respawnRMin
        + (defaultParams.respawnRMax - defaultParams.respawnRMin) * g.bits g.k
        = 18 + 10 * g.bits g.k := by
      rw [show defaultParams.respawnRMin = (18 : ℝ) from rfl,
        show defaultParams.respawnRMax = (28 : ℝ) from rfl]
      ring
    rw [hlin, abs_of_nonneg (by linarith)]
  refine ⟨⟨?_, ?_, ?_⟩, fun qs h => step_length defaultParams qs h⟩
  · rw [hcd]; linarith
  · rw [hcd]; linarith
  · rw [hstep]; exact respawn_brightness _ _

/-- Witness for C1: Scenario B, a particle at distance 3 under the
all-zero draw stream. -/
theorem horizon_respawn_postcondition_w :
    distOf ⟨3, 0, 0, 0, 1⟩ < defaultParams.horizonRadius
    ∧ (18 ≤ centerDist (stepParticle defaultParams ⟨3, 0, 0, 0, 1⟩ constRng0).1
        ∧ centerDist (stepParticle defaultParams ⟨3, 0, 0, 0, 1⟩ constRng0).1 ≤ 28
        ∧ (stepParticle defaultParams ⟨3, 0, 0, 0, 1⟩ constRng0).1.brightness = 0.6) := by
  have hd : distOf ⟨3, 0, 0, 0, 1⟩ < defaultParams.horizonRadius := by
    unfold distOf
    dsimp
    rw [sqrt_of_three_sq]
    norm_num [defaultParams]
  exact ⟨hd,
    (horizon_respawn_postcondition ⟨3, 0, 0, 0, 1⟩ constRng0 le_rfl
      (by norm_num [constRng0]) hd).1⟩

/-- C4 counterexample: with every unit draw equal to 1/4 the code
respawns at distance 18 + 10*(1/4) = 20.5, while the spec's area-biased
formula (the Initializer's sampling restricted to the ring) would give
18 + 10*sqrt(1/4) = 23. -/
theorem respawn_not_area_biased :
    centerDist (respawnAtOuterRing defaultParams rngQuarter).1 = 20.5
    ∧ respawnRadiusSpec defaultParams (1 / 4) = 23
    ∧ centerDist (respawnAtOuterRing defaultParams rngQuarter).1
        ≠ respawnRadiusSpec defaultParams (1 / 4) := by
  have h1 : centerDist (respawnAtOuterRing defaultParams rngQuarter).1 = 20.5 := by
    rw [respawn_centerDist, randFloat_zero_one]
    rw [show rngQuarter.bits rngQuarter.k = 1 / 4 from rfl,
      show defaultParams.respawnRMin = (18 : ℝ) from rfl,
      show defaultParams.respawnRMax = (28 : ℝ) from rfl]
    rw [abs_of_nonneg (by norm_num)]
    norm_num
  have h2 : respawnRadiusSpec defaultParams (1 / 4) = 23 := by
    unfold respawnRadiusSpec
    rw [show defaultParams.respawnRMin = (18 : ℝ) from rfl,
      show defaultParams.respawnRMax = (28 : ℝ) from rfl,
      show (1 / 4 : ℝ) = (1 / 2) ^ 2 by norm_num, Real.sqrt_sq (by norm_num)]
    norm_num
  exact ⟨h1, h2, by rw [h1, h2]; norm_num⟩

/-- C4 amended: the respawn radius is the linear image
`respawnRMin + (respawnRMax - respawnRMin) * u` of the uniform draw `u`
— uniform in radius over the ring, without the Initializer's `sqrt`
area bias. -/
theorem respawn_radius_linear (g : Rng) (h0 : 0 ≤ g.bits g.k) :
    centerDist (respawnAtOuterRing defaultParams g).1
      = defaultParams.respawnRMin
        + (defaultParams.respawnRMax - defaultParams.respawnRMin) * g.bits g.k := by
  rw [respawn_centerDist, randFloat_zero_one]
  apply abs_of_nonneg
  rw [show defaultParams.respawnRMin = (18 : ℝ) from rfl,
    show defaultParams.respawnRMax = (28 : ℝ) from rfl]
  nlinarith

/-- Witness for the amended C4 under the all-zero draw stream. -/
theorem respawn_radius_linear_w :
    0 ≤ constRng0.bits constRng0.k
    ∧ centerDist (respawnAtOuterRing defaultParams constRng0).1
        = defaultParams.respawnRMin
          + (defaultParams.respawnRMax - defaultParams.respawnRMin)
            * constRng0.bits constRng0.k :=
  ⟨le_rfl, respawn_radius_linear constRng0 le_rfl⟩

/-- C6: `init(-1)` does not produce an empty ensemble — the
int-to-size_t conversion makes `resize` request 2^64 - 1 slots, which
raises `length_error`; only `count = 0` yields the empty ensemble, on
which every `step()` is a no-op. -/
theorem init_negative_count_errors :
    init defaultParams (-1) constRng0 = Except.error CppError.lengthError
    ∧ sizeOfCount (-1) = 2 ^ 64 - 1
    ∧ init defaultParams 0 constRng0 = Except.ok ([], constRng0)
    ∧ ∀ g : Rng, step defaultParams [] g = ([], g) := by
  have hsz : sizeOfCount (-1) = 2 ^ 64 - 1 := by
    unfold sizeOfCount
    norm_num
    rfl
  refine ⟨?_, hsz, ?_, fun g => rfl⟩
  · unfold init
    rw [hsz, if_pos (by norm_num [floatVecMaxSize])]
  · unfold init
    rw [if_neg (by norm_num [sizeOfCount, floatVecMaxSize])]
    rfl

/-- C7 counterexample: with viscosity and cooling disabled, one step
from rest at (10, 0) changes the speed — the gravitational kick alone
alters it, so the speed is not constant across steps. -/
theorem speed_not_constant_cex :
    spd (stepParticle scenarioCParams ⟨10, 0, 0, 0, 1⟩ constRng0).1
      ≠ spd ⟨10, 0, 0, 0, 1⟩ := by
  have hd : distOf ⟨10, 0, 0, 0, 1⟩ = 10 + 1e-3 := by
    unfold distOf; dsimp; rw [sqrt_of_ten_sq]
  have hout : ¬ distOf ⟨10, 0, 0, 0, 1⟩ < scenarioCParams.horizonRadius := by
    rw [hd, show scenarioCParams.horizonRadius = (7 : ℝ) from rfl]
    norm_num
  have hstep : stepParticle scenarioCParams ⟨10, 0, 0, 0, 1⟩ constRng0
      = (stepNoRespawn scenarioCParams ⟨10, 0, 0, 0, 1⟩, constRng0) := by
    unfold stepParticle; rw [if_neg hout]
  have heta : eta scenarioCParams ⟨10, 0, 0, 0, 1⟩ = 0 := by
    unfold eta etaRaw
    rw [show scenarioCParams.viscosityBase = (0 : ℝ) from rfl, zero_div]
    norm_num
  have hA : 0 < aBhMag scenarioCParams ⟨10, 0, 0, 0, 1⟩ := by
    unfold aBhMag
    rw [hd, show scenarioCParams.G = (2 : ℝ) from rfl,
      show scenarioCParams.M_bh = (400 : ℝ) from rfl,
      show scenarioCParams.softening = (0.5 : ℝ) from rfl]
    positivity
  have hB : 0 < aDmMag scenarioCParams ⟨10, 0, 0, 0, 1⟩ := by
    unfold aDmMag
    rw [hd, show scenarioCParams.v0 = (2.2 : ℝ) from rfl,
      show scenarioCParams.r_core = (1.2 : ℝ) from rfl]
    positivity
  have hAB : 0 < aBhMag scenarioCParams ⟨10, 0, 0, 0, 1⟩
      + aDmMag scenarioCParams ⟨10, 0, 0, 0, 1⟩ := add_pos hA hB
  have hvx : velX1 scenarioCParams ⟨10, 0, 0, 0, 1⟩ < 0 := by
    unfold velX1 accX dirX
    dsimp
    rw [hd, show scenarioCParams.dt = (0.01 : ℝ) from rfl]
    have hc : (0 : ℝ) < 10 * (1 / (10 + 1e-3)) * 0.01 := by norm_num
    nlinarith [mul_pos hc hAB]
  have hvy : velY1 scenarioCParams ⟨10, 0, 0, 0, 1⟩ = 0 := by
    unfold velY1 accY dirY
    dsimp
    ring
  have hvx2 : velX2 scenarioCParams ⟨10, 0, 0, 0, 1⟩
      = velX1 scenarioCParams ⟨10, 0, 0, 0, 1⟩ := by
    unfold velX2; rw [heta]; ring
  have hvy2 : velY2 scenarioCParams ⟨10, 0, 0, 0, 1⟩ = 0 := by
    unfold velY2; rw [heta, hvy]; ring
  have hafter : spd (stepNoRespawn scenarioCParams ⟨10, 0, 0, 0, 1⟩)
      = Real.sqrt (velX1 scenarioCParams ⟨10, 0, 0, 0, 1⟩
          * velX1 scenarioCParams ⟨10, 0, 0, 0, 1⟩) := by
    unfold spd
    dsimp only [stepNoRespawn]
    rw [hvx2, hvy2]
    norm_num
  have hbefore : spd ⟨10, 0, 0, 0, 1⟩ = 0 := by
    unfold spd; dsimp; norm_num
  have hpos : 0 < spd (stepNoRespawn scenarioCParams ⟨10, 0, 0, 0, 1⟩) := by
    rw [hafter]
    exact Real.sqrt_pos.mpr (mul_pos_of_neg_of_neg hvx hvx)
  rw [hstep, hbefore]
  exact ne_of_gt hpos

/-- C7 amended: with viscosity disabled (`viscosityBase = 0`) the
accretion phase applies no damping, so outside the horizon the
post-step velocity is exactly the undamped semi-implicit-Euler velocity
`v + a*dt`; the speed changes only through the gravitational kick and is
not constant across steps in general. -/
theorem no_dissipation_keeps_integrator_velocity (P : SimParams) (p : Particle)
    (g : Rng) (hv : P.viscosityBase = 0) (hout : ¬ distOf p < P.horizonRadius) :
    (stepParticle P p g).1.velX = velX1 P p
    ∧ (stepParticle P p g).1.velY = velY1 P p
    ∧ spd (stepParticle P p g).1 = Real.sqrt (speed2 P p) := by
  have heta : eta P p = 0 := by
    unfold eta etaRaw
    rw [hv, zero_div]
    norm_num
  have hx : velX2 P p = velX1 P p := by unfold velX2; rw [heta]; ring
  have hy : velY2 P p = velY1 P p := by unfold velY2; rw [heta]; ring
  have hstep : stepParticle P p g = (stepNoRespawn P p, g) := by
    unfold stepParticle; rw [if_neg hout]
  rw [hstep]
  refine ⟨hx, hy, ?_⟩
  show spd (stepNoRespawn P p) = _
  unfold spd
  dsimp only [stepNoRespawn]
  rw [hx, hy]
  rfl

/-- Witness for the amended C7 with Scenario C parameters at (10, 0). -/
theorem no_dissipation_keeps_integrator_velocity_w :
    scenarioCParams.viscosityBase = 0
    ∧ ¬ distOf ⟨10, 0, 0, 0, 1⟩ < scenarioCParams.horizonRadius
    ∧ ((stepParticle scenarioCParams ⟨10, 0, 0, 0, 1⟩ constRng0).1.velX
          = velX1 scenarioCParams ⟨10, 0, 0, 0, 1⟩
        ∧ spd (stepParticle scenarioCParams ⟨10, 0, 0, 0, 1⟩ constRng0).1
          = Real.sqrt (speed2 scenarioCParams ⟨10, 0, 0, 0, 1⟩)) := by
  have hv : scenarioCParams.viscosityBase = 0 := rfl
  have hout : ¬ distOf ⟨10, 0, 0, 0, 1⟩ < scenarioCParams.horizonRadius := by
    have hd : distOf ⟨10, 0, 0, 0, 1⟩ = 10 + 1e-3 := by
      unfold distOf; dsimp; rw [sqrt_of_ten_sq]
    rw [hd, show scenarioCParams.horizonRadius = (7 : ℝ) from rfl]
    norm_num
  have h := no_dissipation_keeps_integrator_velocity scenarioCParams
    ⟨10, 0, 0, 0, 1⟩ constRng0 hv hout
  exact ⟨hv, hout, h.1, h.2.2⟩

/-- C9: `SimParams` has no construction-time validation: a parameter set
with `respawnRMin = 5 ≤ horizonRadius = 7` is representable, and `step`
runs normally under it (here even respawning a swallowed particle with
the usual fixed brightness) — no configuration error exists to be
raised. -/
theorem simparams_unvalidated :
    badParams.respawnRMin ≤ badParams.horizonRadius
    ∧ ((step badParams [⟨3, 0, 0, 0, 1⟩] constRng0).1).length = 1
    ∧ (stepParticle badParams ⟨3, 0, 0, 0, 1⟩ constRng0).1.brightness = 0.6 := by
  refine ⟨?_, ?_, ?_⟩
  · rw [show badParams.respawnRMin = (5 : ℝ) from rfl,
      show badParams.horizonRadius = (7 : ℝ) from rfl]
    norm_num
  · rw [step_length]; rfl
  · have hd : distOf ⟨3, 0, 0, 0, 1⟩ < badParams.horizonRadius := by
      unfold distOf
      dsimp
      rw [sqrt_of_three_sq, show badParams.horizonRadius = (7 : ℝ) from rfl]
      norm_num
    unfold stepParticle
    rw [if_pos hd]
    exact respawn_brightness _ _

end BlackHole
